/-
Verification of the bootforgeusb device-identification pipeline
(src/libs/bootforgeusb): a shallow embedding in Lean 4 of the data model
(model.rs), the candidate classifier (classify.rs), the tool-evidence
correlator (tools/confirmers.rs) and the record assembler (lib.rs),
followed by theorems settling the specification claims.

Modelling conventions:
* Rust `f32` confidence values are modelled as `ℚ`; all confidence
  constants in the source are short decimal literals, exactly
  representable, and the only arithmetic on them is `+ 0.15` and
  `.min(0.95)`.
* Rust `String` is Lean `String`; `u8` fields are `Nat`.
* Process execution (`std::process::Command`) is abstracted: the probe
  functions take the availability flag and the execution result as
  parameters, everything after that point is translated literally.
-/
import Mathlib

namespace BootForgeUsb

/-- model.rs `InterfaceHint` (fields class/subclass/protocol; `class` is a
Lean keyword, renamed to `cls`). -/
structure InterfaceHint where
  cls : Nat
  subclass : Nat
  protocol : Nat
deriving DecidableEq, Repr

/-- model.rs `UsbTransportEvidence`. -/
structure UsbTransportEvidence where
  vid : String
  pid : String
  manufacturer : Option String
  product : Option String
  serial : Option String
  bus : Nat
  address : Nat
  interface_class : Option Nat
  interface_hints : List InterfaceHint
deriving DecidableEq, Repr

/-- model.rs `ToolEvidence`. -/
structure ToolEvidence where
  present : Bool
  seen : Bool
  raw : String
  device_ids : List String
deriving DecidableEq, Repr

/-- model.rs `ToolEvidence::missing()`. -/
def ToolEvidence.missing : ToolEvidence :=
  { present := false, seen := false, raw := "missing", device_ids := [] }

/-- model.rs `ToolEvidence::present_not_seen()`. -/
def ToolEvidence.present_not_seen : ToolEvidence :=
  { present := true, seen := false, raw := "", device_ids := [] }

/-- model.rs `ToolEvidence::confirmed(raw, device_ids)`:
`seen` is set exactly when `device_ids` is non-empty. -/
def ToolEvidence.confirmed (raw : String) (device_ids : List String) : ToolEvidence :=
  { present := true, seen := !device_ids.isEmpty, raw := raw, device_ids := device_ids }

/-- model.rs `DeviceMode`. -/
inductive DeviceMode where
  | IosNormalLikely
  | IosRecoveryLikely
  | IosDfuLikely
  | AndroidAdbConfirmed
  | AndroidFastbootConfirmed
  | AndroidRecoveryAdbConfirmed
  | UnknownUsb
deriving DecidableEq, Repr

/-- model.rs `DeviceMode::as_str`. -/
def DeviceMode.as_str : DeviceMode → String
  | .IosNormalLikely => "ios_normal_likely"
  | .IosRecoveryLikely => "ios_recovery_likely"
  | .IosDfuLikely => "ios_dfu_likely"
  | .AndroidAdbConfirmed => "android_adb_confirmed"
  | .AndroidFastbootConfirmed => "android_fastboot_confirmed"
  | .AndroidRecoveryAdbConfirmed => "android_recovery_adb_confirmed"
  | .UnknownUsb => "unknown_usb"

/-- model.rs `Classification` (confidence: f32, modelled as ℚ). -/
structure Classification where
  mode : DeviceMode
  confidence : ℚ
  notes : List String
deriving DecidableEq, Repr

/-- model.rs `ToolConfirmers` (tools/confirmers.rs). -/
structure ToolConfirmers where
  adb : ToolEvidence
  fastboot : ToolEvidence
  idevice_id : ToolEvidence
deriving DecidableEq, Repr

/-- model.rs `ConfirmedDeviceRecord`; `evidence.tools` (a HashMap in the
source, keyed by tool name) is modelled as an association list in
insertion order. -/
structure ConfirmedDeviceRecord where
  device_uid : String
  platform_hint : String
  mode : String
  confidence : ℚ
  evidence_usb : UsbTransportEvidence
  evidence_tools : List (String × ToolEvidence)
  notes : List String
  matched_tool_ids : List String
deriving DecidableEq, Repr

/-
String helpers. The Rust `str` methods the pipeline uses are implemented
over `List Char` by structural recursion (UTF-8 byte positions play no
role in any of them), so that every definition evaluates by kernel
reduction on concrete inputs.
-/

/-- Split a character list at every position where `p` holds (the
separator characters are dropped; empty segments are kept). -/
def splitOnPred (p : Char → Bool) : List Char → List (List Char)
  | [] => [[]]
  | c :: cs =>
    let r := splitOnPred p cs
    if p c then [] :: r
    else
      match r with
      | seg :: rest => (c :: seg) :: rest
      | [] => [[c]]

/-- Does `pat` occur as a contiguous sublist? (Rust `str::contains`.) -/
def listContainsSub (pat : List Char) : List Char → Bool
  | [] => pat.isEmpty
  | c :: cs => pat.isPrefixOf (c :: cs) || listContainsSub pat cs

/-- Rust `str::contains(pat)`. -/
def strContains (s pat : String) : Bool :=
  listContainsSub pat.data s.data

/-- Rust `str::starts_with(pat)`. -/
def strStartsWith (s pat : String) : Bool :=
  pat.data.isPrefixOf s.data

/-- Rust `str::trim`: strip leading and trailing whitespace. -/
def strTrim (s : String) : String :=
  String.mk (((s.data.dropWhile Char.isWhitespace).reverse.dropWhile
    Char.isWhitespace).reverse)

/-- Rust `str::to_lowercase` (every character the pipeline lowercases is
ASCII, where `Char.toLower` agrees with Rust). -/
def strToLower (s : String) : String :=
  String.mk (s.data.map Char.toLower)

/-- Rust `str::eq_ignore_ascii_case` (ASCII-only case fold). -/
def eqIgnoreAsciiCase (a b : String) : Bool :=
  strToLower a == strToLower b

/-- Rust `str::lines`: split on `\n`, drop a final empty segment (a
trailing newline does not produce an empty last line) and strip a
trailing `\r` from each line. -/
def rustLines (s : String) : List String :=
  let segs := splitOnPred (fun c => c == '\n') s.data
  let segs := match segs.reverse with
    | [] :: rest => rest.reverse
    | _ => segs
  segs.map fun l => String.mk (if l.getLast? = some '\r' then l.dropLast else l)

/-- Rust `str::split_whitespace`: maximal runs of non-whitespace. -/
def splitWhitespace (s : String) : List String :=
  ((splitOnPred Char.isWhitespace s.data).filter fun t => !t.isEmpty).map String.mk

/-- classify.rs `has_vendor_interface`. -/
def has_vendor_interface (hints : List InterfaceHint) : Bool :=
  hints.any fun h => h.cls == 0xff

/-- classify.rs `is_apple`. -/
def is_apple (transport : UsbTransportEvidence) : Bool :=
  eqIgnoreAsciiCase transport.vid "05ac"

/-- classify.rs `is_android_vendor`. -/
def is_android_vendor (vid : String) : Bool :=
  vid == "18d1" || vid == "04e8" || vid == "2a70" || vid == "2717" ||
  vid == "0bb4" || vid == "12d1" || vid == "0fce" || vid == "19d2" ||
  vid == "1004" || vid == "0e8d" || vid == "2a45" || vid == "1ebf" ||
  vid == "0502" || vid == "1782" || vid == "22b8"

/-- classify.rs `is_android_likely`. -/
def is_android_likely (transport : UsbTransportEvidence) : Bool :=
  if is_apple transport then false
  else is_android_vendor transport.vid || has_vendor_interface transport.interface_hints

/-- classify.rs `classify_apple_device`. -/
def classify_apple_device (pid : String) (transport : UsbTransportEvidence) : Classification :=
  let missing_strings := transport.product.isNone && transport.serial.isNone
  if pid = "1227" then
    { mode := .IosDfuLikely, confidence := 0.86,
      notes := ["Apple VID with minimal descriptors + vendor interface pattern suggests DFU-like state",
                "USB signature matches Apple DFU mode (VID:05AC PID:1227)"] }
  else if pid = "1281" then
    { mode := .IosRecoveryLikely, confidence := 0.82,
      notes := ["Apple VID suggests Recovery/Restore-like state",
                "USB signature matches Apple Recovery mode (VID:05AC PID:1281)"] }
  else if pid = "12a8" ∨ pid = "12ab" then
    { mode := .IosNormalLikely, confidence := 0.75,
      notes := ["USB signature matches iOS device in normal mode (VID:05AC PID:" ++ pid ++ ")",
                "Confirm via system tools or idevice_id"] }
  else
    if missing_strings && has_vendor_interface transport.interface_hints then
      { mode := .IosDfuLikely, confidence := 0.86,
        notes := ["Apple VID with minimal descriptors + vendor interface suggests DFU-like state"] }
    else if (transport.product.map fun p => strContains p "iPhone" || strContains p "iPad").getD false then
      { mode := .IosNormalLikely, confidence := 0.70,
        notes := ["Apple device with unknown PID:" ++ pid ++ " but product string suggests iOS"] }
    else
      { mode := .IosRecoveryLikely, confidence := 0.75,
        notes := ["Apple device with unrecognized PID:" ++ pid,
                  "Confirm via system tools"] }

/-- classify.rs `classify_android_device`. -/
def classify_android_device (_pid : String) (transport : UsbTransportEvidence) : Classification :=
  if has_vendor_interface transport.interface_hints then
    { mode := .UnknownUsb, confidence := 0.70,
      notes := ["Likely Android-related USB device (vendor interface/VID)",
                "Confirm via adb/fastboot"] }
  else
    { mode := .UnknownUsb, confidence := 0.60,
      notes := ["Android vendor ID detected but mode unclear - run adb/fastboot to confirm"] }

/-- classify.rs `classify_candidate_device` (stage 2, USB-only). -/
def classify_candidate_device (transport : UsbTransportEvidence) : Classification :=
  let vid := transport.vid
  let pid := transport.pid
  if vid = "05ac" then
    classify_apple_device pid transport
  else if is_android_vendor vid then
    classify_android_device pid transport
  else
    { mode := .UnknownUsb, confidence := 0.5,
      notes := ["USB device detected but not classified as mobile device"] }

/-- tools/confirmers.rs `correlate_device_identity`, ADB block: the source
mutates `classification` and pushes onto `matched_ids`; each block is
modelled as a function returning the updated classification and the ids
it pushed. -/
def adbCorrelateStep (adb : ToolEvidence) (serial_num : String) (c : Classification) :
    Classification × List String :=
  if adb.present && adb.device_ids.any (fun id => id == serial_num) then
    ({ mode := if c.mode = .UnknownUsb then .AndroidAdbConfirmed else c.mode,
       confidence := min (c.confidence + 0.15) 0.95,
       notes := c.notes ++ ["Correlated: adb device id matches USB serial"] },
     [serial_num])
  else (c, [])

/-- tools/confirmers.rs `correlate_device_identity`, Fastboot block. -/
def fastbootCorrelateStep (fastboot : ToolEvidence) (serial_num : String) (c : Classification) :
    Classification × List String :=
  if fastboot.present && fastboot.device_ids.any (fun id => id == serial_num) then
    ({ mode := .AndroidFastbootConfirmed,
       confidence := min (c.confidence + 0.15) 0.95,
       notes := c.notes ++ ["Correlated: fastboot device id matches USB serial"] },
     [serial_num])
  else (c, [])

/-- tools/confirmers.rs `correlate_device_identity`, idevice_id block. -/
def ideviceCorrelateStep (idevice : ToolEvidence) (serial_num : String) (c : Classification) :
    Classification × List String :=
  if idevice.present && idevice.device_ids.any (fun id => id == serial_num) then
    ({ mode := c.mode,
       confidence := min (c.confidence + 0.15) 0.95,
       notes := c.notes ++ ["Correlated: idevice UDID matches"] },
     [serial_num])
  else (c, [])

/-- tools/confirmers.rs `ToolConfirmers::correlate_device_identity`
(Phase A, direct serial correlation): the three tool blocks applied in
source order; returns the updated classification and the matched ids. -/
def correlate_device_identity (tools : ToolConfirmers) (serial : Option String)
    (c : Classification) : Classification × List String :=
  match serial with
  | none => (c, [])
  | some serial_num =>
    let r1 := adbCorrelateStep tools.adb serial_num c
    let r2 := fastbootCorrelateStep tools.fastboot serial_num r1.1
    let r3 := ideviceCorrelateStep tools.idevice_id serial_num r2.1
    (r3.1, r1.2 ++ r2.2 ++ r3.2)

/-- classify.rs `attempt_single_candidate_identity_resolution`, first block
(Android + ADB heuristic). The source checks `device_ids.len() == 1` and
then reads `device_ids[0]`; here the two are one pattern match. -/
def androidAdbHeuristic (t : UsbTransportEvidence) (ts : List UsbTransportEvidence)
    (tools : ToolConfirmers) (c : Classification) : Classification × List String :=
  match tools.adb.device_ids with
  | [adbId] =>
    if is_android_likely t
        && (ts.filter fun d => is_android_likely d).length == 1 then
      ({ mode := if strContains (strToLower tools.adb.raw) "sideload"
                    || strContains (strToLower tools.adb.raw) "recovery" then
                   .AndroidRecoveryAdbConfirmed
                 else .AndroidAdbConfirmed,
         confidence := 0.90,
         notes := c.notes ++
           ["Correlated: single likely-Android USB device + single adb device id present (heuristic)"] },
       [adbId])
    else (c, [])
  | _ => (c, [])

/-- classify.rs `attempt_single_candidate_identity_resolution`, second
block (Android + Fastboot heuristic). -/
def androidFastbootHeuristic (t : UsbTransportEvidence) (ts : List UsbTransportEvidence)
    (tools : ToolConfirmers) (c : Classification) : Classification × List String :=
  match tools.fastboot.device_ids with
  | [fbId] =>
    if is_android_likely t
        && (ts.filter fun d => is_android_likely d).length == 1 then
      ({ mode := .AndroidFastbootConfirmed,
         confidence := 0.90,
         notes := c.notes ++
           ["Correlated: single likely-Android USB device + single fastboot device id present (heuristic)"] },
       [fbId])
    else (c, [])
  | _ => (c, [])

/-- classify.rs `attempt_single_candidate_identity_resolution`, third
block (iOS + idevice_id heuristic). -/
def iosIdeviceHeuristic (t : UsbTransportEvidence) (ts : List UsbTransportEvidence)
    (tools : ToolConfirmers) (c : Classification) : Classification × List String :=
  match tools.idevice_id.device_ids with
  | [udid] =>
    if is_apple t && (ts.filter fun d => is_apple d).length == 1 then
      ({ mode := .IosNormalLikely,
         confidence := 0.95,
         notes := c.notes ++
           ["Correlated: single idevice_id UDID + single Apple USB device present"] },
       [udid])
    else (c, [])
  | _ => (c, [])

/-- classify.rs `attempt_single_candidate_identity_resolution` (Phase B):
the three heuristic blocks applied in source order, accumulating matched
ids. -/
def attempt_single_candidate_identity_resolution (t : UsbTransportEvidence)
    (ts : List UsbTransportEvidence) (tools : ToolConfirmers) (c : Classification) :
    Classification × List String :=
  let r1 := androidAdbHeuristic t ts tools c
  let r2 := androidFastbootHeuristic t ts tools r1.1
  let r3 := iosIdeviceHeuristic t ts tools r2.1
  (r3.1, r1.2 ++ r2.2 ++ r3.2)

/-- classify.rs `resolve_device_identity_with_correlation` (stage 4). -/
def resolve_device_identity_with_correlation (transport : UsbTransportEvidence)
    (all_transports : List UsbTransportEvidence) (tools : ToolConfirmers) :
    Classification × List String :=
  let classification := classify_candidate_device transport
  let step4a :=
    match transport.serial with
    | some s => correlate_device_identity tools (some s) classification
    | none => (classification, [])
  if step4a.2.isEmpty then
    let step4b := attempt_single_candidate_identity_resolution
      transport all_transports tools step4a.1
    (step4b.1, step4a.2 ++ step4b.2)
  else step4a

/-- tools/confirmers.rs `parse_adb_ids`, per-line rule (the closure inside
`filter_map`). -/
def adbLineRule (line : String) : Option String :=
  let line := strTrim line
  if line.data.isEmpty || strStartsWith line "List of devices" then none
  else
    match splitWhitespace line with
    | serialTok :: state :: _ =>
      if state == "device" || state == "sideload" || state == "recovery" then
        some serialTok
      else none
    | _ => none

/-- tools/confirmers.rs `parse_adb_ids`. -/
def parse_adb_ids (stdout : String) : List String :=
  (rustLines stdout).filterMap adbLineRule

/-- tools/confirmers.rs `parse_fastboot_ids`, per-line rule. -/
def fastbootLineRule (line : String) : Option String :=
  let line := strTrim line
  if line.data.isEmpty then none
  else
    match splitWhitespace line with
    | tok :: _ => some tok
    | [] => none

/-- tools/confirmers.rs `parse_fastboot_ids`. -/
def parse_fastboot_ids (stdout : String) : List String :=
  (rustLines stdout).filterMap fastbootLineRule

/-- tools/confirmers.rs `parse_idevice_ids`. -/
def parse_idevice_ids (stdout : String) : List String :=
  ((rustLines stdout).map fun l => strTrim l).filter fun l => !l.data.isEmpty

/-- Outcome of running a tool's listing command
(`std::process::Command::output`): `.ok (stdout, stderr)` or `.error e`. -/
abbrev ExecResult := Except String (String × String)

/-- tools/confirmers.rs `probe_adb_tool` / `probe_fastboot_tool` /
`probe_idevice_id_tool`, common shape: the availability check and the
process run are ambient effects, passed in as `available` and `exec`;
`parse_ids` is the tool-specific output grammar. -/
def probe_tool (parse_ids : String → List String) (available : Bool)
    (exec : ExecResult) : ToolEvidence :=
  if !available then ToolEvidence.missing
  else
    match exec with
    | .ok (stdout, stderr) =>
      let device_ids := parse_ids stdout
      let raw := "STDOUT:\n" ++ strTrim stdout ++ "\nSTDERR:\n" ++ strTrim stderr
      ToolEvidence.confirmed raw device_ids
    | .error e =>
      { present := true, seen := false, raw := "error: " ++ e, device_ids := [] }

/-- tools/confirmers.rs `probe_adb_tool` (`adb devices -l`). -/
def probe_adb_tool (available : Bool) (exec : ExecResult) : ToolEvidence :=
  probe_tool parse_adb_ids available exec

/-- tools/confirmers.rs `probe_fastboot_tool` (`fastboot devices`). -/
def probe_fastboot_tool (available : Bool) (exec : ExecResult) : ToolEvidence :=
  probe_tool parse_fastboot_ids available exec

/-- tools/confirmers.rs `probe_idevice_id_tool` (`idevice_id -l`). -/
def probe_idevice_id_tool (available : Bool) (exec : ExecResult) : ToolEvidence :=
  probe_tool parse_idevice_ids available exec

/-- lib.rs `resolve_device_identity` (stage 5, stable-identity precedence). -/
def resolve_device_identity (transport : UsbTransportEvidence)
    (matched_tool_ids : List String) : String :=
  match transport.serial with
  | some serial => serial
  | none =>
    match matched_tool_ids with
    | tool_id :: _ => tool_id
    | [] =>
      "usb:" ++ transport.vid ++ ":" ++ transport.pid ++
        ":bus" ++ toString transport.bus ++ ":addr" ++ toString transport.address

/-- lib.rs `scan`, body of the per-transport loop (stages 2, 4, 5):
classify, resolve identity with correlation, assemble the record. -/
def assembleRecord (transport : UsbTransportEvidence)
    (usb_transports : List UsbTransportEvidence) (tools : ToolConfirmers) :
    ConfirmedDeviceRecord :=
  let res := resolve_device_identity_with_correlation transport usb_transports tools
  let classification := res.1
  let matched_tool_ids := res.2
  let device_uid := resolve_device_identity transport matched_tool_ids
  let modeStr := classification.mode.as_str
  let platform_hint :=
    if strStartsWith modeStr "ios_" then "ios"
    else if strStartsWith modeStr "android_" then "android"
    else "unknown"
  { device_uid := device_uid,
    platform_hint := platform_hint,
    mode := modeStr,
    confidence := classification.confidence,
    evidence_usb := transport,
    evidence_tools := [("adb", tools.adb), ("fastboot", tools.fastboot),
                       ("idevice_id", tools.idevice_id)],
    notes := classification.notes,
    matched_tool_ids := matched_tool_ids }

/-- lib.rs `scan`, the deterministic part: given the probed transports and
the collected tool evidence, the list of confirmed device records, one per
transport in order. -/
def assembleRecords (usb_transports : List UsbTransportEvidence)
    (tools : ToolConfirmers) : List ConfirmedDeviceRecord :=
  usb_transports.map fun t => assembleRecord t usb_transports tools

/-
Helper lemmas: confidence bounds through the pipeline.
-/

/-- The USB-only classifier only ever assigns confidences from
{0.5, 0.6, 0.7, 0.75, 0.82, 0.86}; in particular at most 0.86. -/
theorem classify_confidence_le (t : UsbTransportEvidence) :
    (classify_candidate_device t).confidence ≤ 0.86 := by
  unfold classify_candidate_device classify_apple_device classify_android_device
  repeat' split <;> norm_num

/-- The `+ 0.15` capped at `0.95` update never decreases a value that is
at most `0.95`, and never exceeds `0.95`. -/
theorem min_bump_bounds (x : ℚ) (h : x ≤ 0.95) :
    x ≤ min (x + 0.15) 0.95 ∧ min (x + 0.15) 0.95 ≤ 0.95 :=
  ⟨le_min (by linarith) h, min_le_right _ _⟩

theorem adbCorrelateStep_confidence_bounds (e : ToolEvidence) (s : String)
    (c : Classification) (h : c.confidence ≤ 0.95) :
    c.confidence ≤ (adbCorrelateStep e s c).1.confidence ∧
      (adbCorrelateStep e s c).1.confidence ≤ 0.95 := by
  unfold adbCorrelateStep
  split
  · exact min_bump_bounds c.confidence h
  · exact ⟨le_refl _, h⟩

theorem fastbootCorrelateStep_confidence_bounds (e : ToolEvidence) (s : String)
    (c : Classification) (h : c.confidence ≤ 0.95) :
    c.confidence ≤ (fastbootCorrelateStep e s c).1.confidence ∧
      (fastbootCorrelateStep e s c).1.confidence ≤ 0.95 := by
  unfold fastbootCorrelateStep
  split
  · exact min_bump_bounds c.confidence h
  · exact ⟨le_refl _, h⟩

theorem ideviceCorrelateStep_confidence_bounds (e : ToolEvidence) (s : String)
    (c : Classification) (h : c.confidence ≤ 0.95) :
    c.confidence ≤ (ideviceCorrelateStep e s c).1.confidence ∧
      (ideviceCorrelateStep e s c).1.confidence ≤ 0.95 := by
  unfold ideviceCorrelateStep
  split
  · exact min_bump_bounds c.confidence h
  · exact ⟨le_refl _, h⟩

/-- Phase A (direct serial correlation) never decreases a confidence that
is at most 0.95, and keeps it at most 0.95. -/
theorem correlate_confidence_bounds (tools : ToolConfirmers) (so : Option String)
    (c : Classification) (h : c.confidence ≤ 0.95) :
    c.confidence ≤ (correlate_device_identity tools so c).1.confidence ∧
      (correlate_device_identity tools so c).1.confidence ≤ 0.95 := by
  cases so with
  | none => exact ⟨le_refl _, h⟩
  | some s =>
    have h1 := adbCorrelateStep_confidence_bounds tools.adb s c h
    have h2 := fastbootCorrelateStep_confidence_bounds tools.fastboot s
      (adbCorrelateStep tools.adb s c).1 h1.2
    have h3 := ideviceCorrelateStep_confidence_bounds tools.idevice_id s
      (fastbootCorrelateStep tools.fastboot s (adbCorrelateStep tools.adb s c).1).1 h2.2
    exact ⟨le_trans h1.1 (le_trans h2.1 h3.1), h3.2⟩

theorem androidAdbHeuristic_conf (t : UsbTransportEvidence)
    (ts : List UsbTransportEvidence) (tools : ToolConfirmers) (c : Classification) :
    (androidAdbHeuristic t ts tools c).1.confidence = c.confidence ∨
      (androidAdbHeuristic t ts tools c).1.confidence = 0.90 := by
  unfold androidAdbHeuristic
  repeat' split <;> simp

theorem androidFastbootHeuristic_conf (t : UsbTransportEvidence)
    (ts : List UsbTransportEvidence) (tools : ToolConfirmers) (c : Classification) :
    (androidFastbootHeuristic t ts tools c).1.confidence = c.confidence ∨
      (androidFastbootHeuristic t ts tools c).1.confidence = 0.90 := by
  unfold androidFastbootHeuristic
  repeat' split <;> simp

theorem iosIdeviceHeuristic_conf (t : UsbTransportEvidence)
    (ts : List UsbTransportEvidence) (tools : ToolConfirmers) (c : Classification) :
    (iosIdeviceHeuristic t ts tools c).1.confidence = c.confidence ∨
      (iosIdeviceHeuristic t ts tools c).1.confidence = 0.95 := by
  unfold iosIdeviceHeuristic
  repeat' split <;> simp

/-- Phase B (single-candidate heuristic) either leaves the confidence
unchanged or sets it to one of the constants 0.90, 0.95. -/
theorem attempt_conf_cases (t : UsbTransportEvidence)
    (ts : List UsbTransportEvidence) (tools : ToolConfirmers) (c : Classification) :
    (attempt_single_candidate_identity_resolution t ts tools c).1.confidence = c.confidence ∨
    (attempt_single_candidate_identity_resolution t ts tools c).1.confidence = 0.90 ∨
    (attempt_single_candidate_identity_resolution t ts tools c).1.confidence = 0.95 := by
  have e : (attempt_single_candidate_identity_resolution t ts tools c).1 =
      (iosIdeviceHeuristic t ts tools
        (androidFastbootHeuristic t ts tools
          (androidAdbHeuristic t ts tools c).1).1).1 := rfl
  rw [e]
  rcases iosIdeviceHeuristic_conf t ts tools
    ((androidFastbootHeuristic t ts tools (androidAdbHeuristic t ts tools c).1).1) with h3 | h3
  · rw [h3]
    rcases androidFastbootHeuristic_conf t ts tools
      ((androidAdbHeuristic t ts tools c).1) with h2 | h2
    · rw [h2]
      rcases androidAdbHeuristic_conf t ts tools c with h1 | h1
      · exact Or.inl h1
      · exact Or.inr (Or.inl h1)
    · exact Or.inr (Or.inl h2)
  · exact Or.inr (Or.inr h3)

theorem attempt_conf_bounds (t : UsbTransportEvidence)
    (ts : List UsbTransportEvidence) (tools : ToolConfirmers) (c : Classification)
    (b : ℚ) (hb : b ≤ 0.90) (hbc : b ≤ c.confidence) (hc : c.confidence ≤ 0.95) :
    b ≤ (attempt_single_candidate_identity_resolution t ts tools c).1.confidence ∧
      (attempt_single_candidate_identity_resolution t ts tools c).1.confidence ≤ 0.95 := by
  rcases attempt_conf_cases t ts tools c with h | h | h <;> rw [h] <;>
    exact ⟨by linarith, by linarith⟩

/-- Stage 4 as a whole: the resolved confidence lies between the USB-only
classifier's confidence and 0.95. -/
theorem resolve_confidence_bounds (t : UsbTransportEvidence)
    (ts : List UsbTransportEvidence) (tools : ToolConfirmers) :
    (classify_candidate_device t).confidence ≤
        (resolve_device_identity_with_correlation t ts tools).1.confidence ∧
      (resolve_device_identity_with_correlation t ts tools).1.confidence ≤ 0.95 := by
  have hc0 := classify_confidence_le t
  have hc095 : (classify_candidate_device t).confidence ≤ 0.95 := by linarith
  unfold resolve_device_identity_with_correlation
  cases hs : t.serial with
  | none =>
    simp only [hs, List.isEmpty_nil, if_true]
    exact attempt_conf_bounds t ts tools (classify_candidate_device t)
      (classify_candidate_device t).confidence (by linarith) (le_refl _) hc095
  | some s =>
    simp only [hs]
    have hA := correlate_confidence_bounds tools (some s) (classify_candidate_device t) hc095
    split
    · exact attempt_conf_bounds t ts tools
        (correlate_device_identity tools (some s) (classify_candidate_device t)).1
        (classify_candidate_device t).confidence (by linarith) hA.1 hA.2
    · exact hA

/-- Claim C1: correlation never decreases confidence — for every
transport, every list of observed transports and every tool evidence, the
confidence produced by `resolve_device_identity_with_correlation` is at
least the confidence produced by `classify_candidate_device` on the same
transport. -/
theorem claim_C1_correlation_never_decreases_confidence
    (t : UsbTransportEvidence) (ts : List UsbTransportEvidence)
    (tools : ToolConfirmers) :
    (classify_candidate_device t).confidence ≤
      (resolve_device_identity_with_correlation t ts tools).1.confidence :=
  (resolve_confidence_bounds t ts tools).1

/-- Claim C3: correlation confidence never exceeds 0.95 — for every
transport, every list of observed transports and every tool evidence, the
confidence produced by `resolve_device_identity_with_correlation` is at
most 0.95. -/
theorem claim_C3_correlation_confidence_capped
    (t : UsbTransportEvidence) (ts : List UsbTransportEvidence)
    (tools : ToolConfirmers) :
    (resolve_device_identity_with_correlation t ts tools).1.confidence ≤ 0.95 :=
  (resolve_confidence_bounds t ts tools).2

/-- The Apple sub-classifier only assigns iOS-likely modes. -/
theorem apple_mode_cases (pid : String) (t : UsbTransportEvidence) :
    (classify_apple_device pid t).mode = DeviceMode.IosDfuLikely ∨
    (classify_apple_device pid t).mode = DeviceMode.IosRecoveryLikely ∨
    (classify_apple_device pid t).mode = DeviceMode.IosNormalLikely := by
  unfold classify_apple_device
  dsimp only
  split_ifs <;> simp

/-- The Android sub-classifier only ever assigns unknown-USB. -/
theorem android_mode_cases (pid : String) (t : UsbTransportEvidence) :
    (classify_android_device pid t).mode = DeviceMode.UnknownUsb := by
  unfold classify_android_device
  split_ifs <;> simp

/-- The USB-only classifier assigns one of four unconfirmed modes. -/
theorem classify_mode_cases (t : UsbTransportEvidence) :
    (classify_candidate_device t).mode = DeviceMode.IosNormalLikely ∨
    (classify_candidate_device t).mode = DeviceMode.IosRecoveryLikely ∨
    (classify_candidate_device t).mode = DeviceMode.IosDfuLikely ∨
    (classify_candidate_device t).mode = DeviceMode.UnknownUsb := by
  unfold classify_candidate_device
  dsimp only
  split_ifs
  · rcases apple_mode_cases t.pid t with h | h | h <;> rw [h] <;> simp
  · rw [android_mode_cases t.pid t]; simp
  · simp

/-- Claim C10: the USB-only classifier never returns a confirmed mode —
for every transport, the mode of `classify_candidate_device` is one of
iOS-normal-likely, iOS-recovery-likely, iOS-DFU-likely, unknown-USB; the
three Android-confirmed modes can only arise from the correlation stage. -/
theorem claim_C10_classifier_never_confirmed (t : UsbTransportEvidence) :
    ((classify_candidate_device t).mode = DeviceMode.IosNormalLikely ∨
     (classify_candidate_device t).mode = DeviceMode.IosRecoveryLikely ∨
     (classify_candidate_device t).mode = DeviceMode.IosDfuLikely ∨
     (classify_candidate_device t).mode = DeviceMode.UnknownUsb) ∧
    (classify_candidate_device t).mode ≠ DeviceMode.AndroidAdbConfirmed ∧
    (classify_candidate_device t).mode ≠ DeviceMode.AndroidFastbootConfirmed ∧
    (classify_candidate_device t).mode ≠ DeviceMode.AndroidRecoveryAdbConfirmed := by
  refine ⟨classify_mode_cases t, ?_, ?_, ?_⟩ <;>
    rcases classify_mode_cases t with h | h | h | h <;> rw [h] <;> simp

/-- Claim C6: an Apple transport (vendor ID "05ac") with the DFU product
ID "1227" is always classified iOS-DFU-likely with confidence exactly
0.86 (hence greater than 0.8), whatever the other fields hold. -/
theorem claim_C6_apple_dfu_product_code (t : UsbTransportEvidence)
    (hv : t.vid = "05ac") (hp : t.pid = "1227") :
    (classify_candidate_device t).mode = DeviceMode.IosDfuLikely ∧
      (classify_candidate_device t).confidence = 0.86 ∧
      (0.8 : ℚ) < (classify_candidate_device t).confidence := by
  unfold classify_candidate_device classify_apple_device
  simp only [hv, hp, if_true, if_pos rfl]
  norm_num

theorem claim_C6_witness :
    (let t : UsbTransportEvidence :=
      { vid := "05ac", pid := "1227", manufacturer := some "Apple Inc.",
        product := some "whatever", serial := some "S", bus := 9, address := 4,
        interface_class := some 3, interface_hints := [⟨3, 1, 2⟩] }
     (classify_candidate_device t).mode = DeviceMode.IosDfuLikely ∧
       (classify_candidate_device t).confidence = 0.86 ∧
       (0.8 : ℚ) < (classify_candidate_device t).confidence) :=
  claim_C6_apple_dfu_product_code _ rfl rfl

/-- Claim C5: stable-identity precedence in `resolve_device_identity` —
the serial wins when present; otherwise the first matched tool ID;
otherwise the synthetic "usb:vid:pid:busN:addrM" composite. -/
theorem claim_C5_device_uid_precedence (t : UsbTransportEvidence)
    (ids : List String) :
    (∀ s, t.serial = some s → resolve_device_identity t ids = s) ∧
    (t.serial = none → ∀ i rest, ids = i :: rest → resolve_device_identity t ids = i) ∧
    (t.serial = none → ids = [] →
      resolve_device_identity t ids =
        "usb:" ++ t.vid ++ ":" ++ t.pid ++ ":bus" ++ toString t.bus ++
          ":addr" ++ toString t.address) := by
  refine ⟨?_, ?_, ?_⟩
  · intro s hs
    unfold resolve_device_identity
    rw [hs]
  · intro hn i rest hids
    unfold resolve_device_identity
    rw [hn, hids]
  · intro hn hids
    unfold resolve_device_identity
    rw [hn, hids]

theorem claim_C5_witness :
    (resolve_device_identity
        { vid := "18d1", pid := "4ee7", manufacturer := none, product := none,
          serial := some "S1", bus := 1, address := 2, interface_class := none,
          interface_hints := [] } ["T1"] = "S1") ∧
    (resolve_device_identity
        { vid := "18d1", pid := "4ee7", manufacturer := none, product := none,
          serial := none, bus := 1, address := 2, interface_class := none,
          interface_hints := [] } ["T1"] = "T1") ∧
    (resolve_device_identity
        { vid := "18d1", pid := "4ee7", manufacturer := none, product := none,
          serial := none, bus := 1, address := 2, interface_class := none,
          interface_hints := [] } [] = "usb:18d1:4ee7:bus1:addr2") :=
  ⟨(claim_C5_device_uid_precedence _ ["T1"]).1 "S1" rfl,
   (claim_C5_device_uid_precedence _ ["T1"]).2.1 rfl "T1" [] rfl,
   by
    have h := (claim_C5_device_uid_precedence
      { vid := "18d1", pid := "4ee7", manufacturer := none, product := none,
        serial := none, bus := 1, address := 2, interface_class := none,
        interface_hints := [] } []).2.2 rfl rfl
    rw [h]
    decide⟩

/-- Claim C2 as stated is false: a transport with Apple vendor ID, an
unrecognized product ID, absent manufacturer and serial strings and a
vendor-class (0xFF) interface hint — but with a product string present —
is classified iOS-recovery-likely at 0.75, not iOS-DFU-likely at 0.86:
the code tests the product string for absence, not the manufacturer. -/
theorem claim_C2_counterexample :
    (let t : UsbTransportEvidence :=
      { vid := "05ac", pid := "9999", manufacturer := none, product := some "X",
        serial := none, bus := 1, address := 1, interface_class := some 0xff,
        interface_hints := [⟨0xff, 0, 0⟩] }
     t.vid = "05ac" ∧ t.pid ≠ "1227" ∧ t.pid ≠ "1281" ∧ t.pid ≠ "12a8" ∧
       t.pid ≠ "12ab" ∧ t.manufacturer = none ∧ t.serial = none ∧
       has_vendor_interface t.interface_hints = true ∧
       (classify_candidate_device t).mode ≠ DeviceMode.IosDfuLikely ∧
       (classify_candidate_device t).mode = DeviceMode.IosRecoveryLikely ∧
       (classify_candidate_device t).confidence = 0.75) := by
  refine ⟨rfl, by decide, by decide, by decide, by decide, rfl, rfl, by decide,
    by decide, by decide, ?_⟩
  unfold classify_candidate_device classify_apple_device
  dsimp only
  rw [if_pos rfl, if_neg (by decide), if_neg (by decide), if_neg (by decide),
    if_neg (by decide), if_neg (by decide)]

/-- Claim C2 (amended: the first sub-rule for an unrecognized Apple
product ID tests absence of the product and serial strings, not the
manufacturer): for every Apple-vendor transport with a product ID outside
the four known codes — if product and serial are both absent and some
interface hint has class 0xFF, the result is iOS-DFU-likely at 0.86; else
if the product string contains "iPhone" or "iPad", iOS-normal-likely at
0.70; else iOS-recovery-likely at 0.75. -/
theorem claim_C2_amended_unknown_apple_pid (t : UsbTransportEvidence)
    (hv : t.vid = "05ac") (h1 : t.pid ≠ "1227") (h2 : t.pid ≠ "1281")
    (h3 : t.pid ≠ "12a8") (h4 : t.pid ≠ "12ab") :
    ((t.product.isNone && t.serial.isNone &&
        has_vendor_interface t.interface_hints) = true →
       (classify_candidate_device t).mode = DeviceMode.IosDfuLikely ∧
       (classify_candidate_device t).confidence = 0.86) ∧
    ((t.product.isNone && t.serial.isNone &&
        has_vendor_interface t.interface_hints) = false →
     ((t.product.map fun p => strContains p "iPhone" || strContains p "iPad").getD false)
         = true →
       (classify_candidate_device t).mode = DeviceMode.IosNormalLikely ∧
       (classify_candidate_device t).confidence = 0.70) ∧
    ((t.product.isNone && t.serial.isNone &&
        has_vendor_interface t.interface_hints) = false →
     ((t.product.map fun p => strContains p "iPhone" || strContains p "iPad").getD false)
         = false →
       (classify_candidate_device t).mode = DeviceMode.IosRecoveryLikely ∧
       (classify_candidate_device t).confidence = 0.75) := by
  unfold classify_candidate_device classify_apple_device
  dsimp only
  rw [if_pos hv, if_neg h1, if_neg h2,
    if_neg (show ¬(t.pid = "12a8" ∨ t.pid = "12ab") by simp [h3, h4])]
  split_ifs with hA hB
  · refine ⟨fun _ => by simp, fun hfalse _ => ?_, fun hfalse _ => ?_⟩ <;> simp_all
  · refine ⟨fun htrue => ?_, fun _ _ => by simp, fun _ hmarker => ?_⟩ <;> simp_all
  · refine ⟨fun htrue => ?_, fun _ hmarker => ?_, fun _ _ => by simp⟩ <;> simp_all

theorem claim_C2_amended_witness :
    ((classify_candidate_device
        { vid := "05ac", pid := "9999", manufacturer := some "Apple Inc.",
          product := none, serial := none, bus := 1, address := 1,
          interface_class := some 0xff,
          interface_hints := [⟨0xff, 1, 2⟩] }).mode = DeviceMode.IosDfuLikely ∧
      (classify_candidate_device
        { vid := "05ac", pid := "9999", manufacturer := some "Apple Inc.",
          product := none, serial := none, bus := 1, address := 1,
          interface_class := some 0xff,
          interface_hints := [⟨0xff, 1, 2⟩] }).confidence = 0.86) ∧
    ((classify_candidate_device
        { vid := "05ac", pid := "9999", manufacturer := none,
          product := some "iPhone 12", serial := none, bus := 1, address := 1,
          interface_class := none,
          interface_hints := [] }).mode = DeviceMode.IosNormalLikely ∧
      (classify_candidate_device
        { vid := "05ac", pid := "9999", manufacturer := none,
          product := some "iPhone 12", serial := none, bus := 1, address := 1,
          interface_class := none,
          interface_hints := [] }).confidence = 0.70) ∧
    ((classify_candidate_device
        { vid := "05ac", pid := "9999", manufacturer := none,
          product := some "Widget", serial := none, bus := 1, address := 1,
          interface_class := none,
          interface_hints := [] }).mode = DeviceMode.IosRecoveryLikely ∧
      (classify_candidate_device
        { vid := "05ac", pid := "9999", manufacturer := none,
          product := some "Widget", serial := none, bus := 1, address := 1,
          interface_class := none,
          interface_hints := [] }).confidence = 0.75) :=
  ⟨(claim_C2_amended_unknown_apple_pid _ rfl (by decide) (by decide) (by decide)
      (by decide)).1 (by decide),
   (claim_C2_amended_unknown_apple_pid _ rfl (by decide) (by decide) (by decide)
      (by decide)).2.1 (by decide) (by decide),
   (claim_C2_amended_unknown_apple_pid _ rfl (by decide) (by decide) (by decide)
      (by decide)).2.2 (by decide) (by decide)⟩

/-- Claim C4: Phase A (direct serial correlation) mode transitions, for
every starting classification — an ADB serial match sets mode to
Android-ADB-confirmed exactly when the current mode is unknown-USB and
otherwise leaves the mode unchanged; a Fastboot serial match
unconditionally sets Android-Fastboot-confirmed; an iOS-tool serial match
never changes the mode and (from any confidence below the 0.95 cap)
strictly raises the confidence. -/
theorem claim_C4_phase_a_mode_transitions (adbEv fbEv idEv : ToolEvidence)
    (s : String) (c : Classification) (h : c.confidence < 0.95) :
    ((adbEv.present && adbEv.device_ids.any fun id => id == s) = true →
       (adbCorrelateStep adbEv s c).1.mode =
         (if c.mode = DeviceMode.UnknownUsb then DeviceMode.AndroidAdbConfirmed
          else c.mode)) ∧
    ((adbEv.present && adbEv.device_ids.any fun id => id == s) = true →
       c.mode ≠ DeviceMode.UnknownUsb → (adbCorrelateStep adbEv s c).1.mode = c.mode) ∧
    ((fbEv.present && fbEv.device_ids.any fun id => id == s) = true →
       (fastbootCorrelateStep fbEv s c).1.mode = DeviceMode.AndroidFastbootConfirmed) ∧
    ((ideviceCorrelateStep idEv s c).1.mode = c.mode) ∧
    ((idEv.present && idEv.device_ids.any fun id => id == s) = true →
       c.confidence < (ideviceCorrelateStep idEv s c).1.confidence) := by
  refine ⟨?_, ?_, ?_, ?_, ?_⟩
  · intro hm
    unfold adbCorrelateStep
    rw [if_pos hm]
  · intro hm hmode
    unfold adbCorrelateStep
    rw [if_pos hm]
    simp [hmode]
  · intro hm
    unfold fastbootCorrelateStep
    rw [if_pos hm]
  · unfold ideviceCorrelateStep
    split <;> rfl
  · intro hm
    unfold ideviceCorrelateStep
    rw [if_pos hm]
    dsimp only
    rcases le_or_lt (c.confidence + 0.15) 0.95 with hle | hlt
    · rw [min_eq_left hle]; linarith
    · rw [min_eq_right (le_of_lt hlt)]; exact h

theorem claim_C4_witness :
    ((0.7 : ℚ) < 0.95) ∧
    (adbCorrelateStep ⟨true, true, "", ["A"]⟩ "A"
        ⟨DeviceMode.UnknownUsb, 0.7, []⟩).1.mode = DeviceMode.AndroidAdbConfirmed ∧
    (fastbootCorrelateStep ⟨true, true, "", ["A"]⟩ "A"
        ⟨DeviceMode.UnknownUsb, 0.7, []⟩).1.mode = DeviceMode.AndroidFastbootConfirmed ∧
    (ideviceCorrelateStep ⟨true, true, "", ["A"]⟩ "A"
        ⟨DeviceMode.UnknownUsb, 0.7, []⟩).1.mode = DeviceMode.UnknownUsb ∧
    (0.7 : ℚ) < (ideviceCorrelateStep ⟨true, true, "", ["A"]⟩ "A"
        ⟨DeviceMode.UnknownUsb, 0.7, []⟩).1.confidence := by
  have hmain := claim_C4_phase_a_mode_transitions ⟨true, true, "", ["A"]⟩
    ⟨true, true, "", ["A"]⟩ ⟨true, true, "", ["A"]⟩ "A"
    ⟨DeviceMode.UnknownUsb, 0.7, []⟩ (by norm_num)
  refine ⟨by norm_num, ?_, hmain.2.2.1 (by decide), hmain.2.2.2.1,
    hmain.2.2.2.2 (by decide)⟩
  rw [hmain.1 (by decide)]
  simp

/-- Claim C9: every ToolEvidence the collector can produce satisfies the
invariant — `seen` implies `present` and non-empty `device_ids` implies
`seen`; and the execution-failure case (tool available but the process
could not start) yields exactly `present = true, seen = false`, an
"error: …" raw capture and no device ids. -/
theorem claim_C9_tool_evidence_invariant (parse_ids : String → List String)
    (available : Bool) (exec : ExecResult) :
    ((probe_tool parse_ids available exec).seen = true →
       (probe_tool parse_ids available exec).present = true) ∧
    ((probe_tool parse_ids available exec).device_ids ≠ [] →
       (probe_tool parse_ids available exec).seen = true) ∧
    (∀ e, available = true → exec = Except.error e →
       probe_tool parse_ids available exec =
         { present := true, seen := false, raw := "error: " ++ e, device_ids := [] }) := by
  cases available with
  | false =>
    have hred : probe_tool parse_ids false exec = ToolEvidence.missing := rfl
    rw [hred]
    refine ⟨?_, ?_, ?_⟩
    · intro hseen
      exact absurd hseen (by decide)
    · intro hids
      exact absurd rfl hids
    · intro e hav
      exact absurd hav (by decide)
  | true =>
    cases exec with
    | ok out =>
      obtain ⟨stdout, stderr⟩ := out
      have hred : probe_tool parse_ids true (Except.ok (stdout, stderr)) =
          ToolEvidence.confirmed
            ("STDOUT:\n" ++ strTrim stdout ++ "\nSTDERR:\n" ++ strTrim stderr)
            (parse_ids stdout) := rfl
      rw [hred]
      refine ⟨fun _ => rfl, ?_, fun e _ habs => by simp at habs⟩
      intro hids
      have hd : parse_ids stdout ≠ [] := hids
      show (!(parse_ids stdout).isEmpty) = true
      cases hp : parse_ids stdout with
      | nil => exact absurd hp hd
      | cons a l => rfl
    | error e0 =>
      have hred : probe_tool parse_ids true (Except.error e0) =
          { present := true, seen := false, raw := "error: " ++ e0,
            device_ids := [] } := rfl
      rw [hred]
      refine ⟨fun _ => rfl, ?_, ?_⟩
      · intro hids
        exact absurd rfl hids
      · intro e _ heq
        simp only [Except.error.injEq] at heq
        subst heq
        rfl

theorem claim_C9_witness :
    probe_tool parse_adb_ids true (Except.error "boom") =
      { present := true, seen := false, raw := "error: boom", device_ids := [] } :=
  (claim_C9_tool_evidence_invariant parse_adb_ids true (Except.error "boom")).2.2
    "boom" rfl rfl

/-- Claim C7: the ADB output grammar — `parse_adb_ids` maps the per-line
rule over the input's lines; a line that trims to empty or to a header
("List of devices…") yields nothing; a line splitting into
serial :: state :: _ yields the serial exactly when the state is one of
"device", "sideload", "recovery"; a line with fewer than two tokens
yields nothing; and the concrete round-trips: the two-device example
parses to ["ABC123", "DEF456"], while an "unauthorized" line is consumed
without contributing an id. -/
theorem claim_C7_adb_output_grammar :
    (parse_adb_ids "List of devices attached\nABC123\tdevice\nDEF456\tdevice\n" =
      ["ABC123", "DEF456"]) ∧
    (∀ text, parse_adb_ids text = (rustLines text).filterMap adbLineRule) ∧
    (∀ line, (strTrim line).data.isEmpty = true → adbLineRule line = none) ∧
    (∀ line, strStartsWith (strTrim line) "List of devices" = true →
       adbLineRule line = none) ∧
    (∀ line serialTok st rest,
       (strTrim line).data.isEmpty = false →
       strStartsWith (strTrim line) "List of devices" = false →
       splitWhitespace (strTrim line) = serialTok :: st :: rest →
       adbLineRule line =
         (if st = "device" ∨ st = "sideload" ∨ st = "recovery" then some serialTok
          else none)) ∧
    (∀ line serialTok,
       splitWhitespace (strTrim line) = [serialTok] → adbLineRule line = none) ∧
    (∀ line, splitWhitespace (strTrim line) = [] → adbLineRule line = none) ∧
    (parse_adb_ids "List of devices attached\nABC123\tunauthorized\n" = []) := by
  refine ⟨by decide, fun text => rfl, ?_, ?_, ?_, ?_, ?_, by decide⟩
  · intro line hemp
    unfold adbLineRule
    dsimp only
    rw [hemp]
    simp
  · intro line hstart
    unfold adbLineRule
    dsimp only
    rw [hstart]
    simp
  · intro line serialTok st rest hemp hstart hsplit
    unfold adbLineRule
    dsimp only
    rw [hemp, hstart, hsplit]
    dsimp only
    by_cases hst : st = "device" ∨ st = "sideload" ∨ st = "recovery"
    · rw [if_pos hst]
      rcases hst with h | h | h <;> subst h <;> rfl
    · rw [if_neg hst]
      push_neg at hst
      obtain ⟨hd, hs, hr⟩ := hst
      simp [beq_iff_eq, hd, hs, hr]
  · intro line serialTok hsplit
    unfold adbLineRule
    dsimp only
    split_ifs with hc
    · rfl
    · rw [hsplit]
  · intro line hsplit
    unfold adbLineRule
    dsimp only
    split_ifs with hc
    · rfl
    · rw [hsplit]

theorem claim_C7_witness :
    adbLineRule "X9 unauthorized" = none := by
  have h := claim_C7_adb_output_grammar.2.2.2.2.1 "X9 unauthorized" "X9"
    "unauthorized" [] (by decide) (by decide) (by decide)
  rw [h]
  decide

/-- Claim C8: end-to-end scenario — with exactly two observed transports,
the first an Android-vendor device with a vendor-class (0xFF) interface
hint and serial "X9" and the second neither Apple nor Android-vendor nor
vendor-class, and tool evidence in which ADB reports exactly
device_ids = ["X9"] (the other tools reporting no ids), the first
transport's assembled record has mode "android_adb_confirmed", confidence
at least 0.85, and matched_tool_ids = ["X9"]. -/
theorem claim_C8_end_to_end (t1 t2 : UsbTransportEvidence) (tools : ToolConfirmers)
    (h1v : is_android_vendor t1.vid = true)
    (h1i : has_vendor_interface t1.interface_hints = true)
    (h1s : t1.serial = some "X9")
    (h2a : is_apple t2 = false)
    (h2v : is_android_vendor t2.vid = false)
    (h2i : has_vendor_interface t2.interface_hints = false)
    (hadbP : tools.adb.present = true)
    (hadbIds : tools.adb.device_ids = ["X9"])
    (hfb : tools.fastboot.device_ids = [])
    (hid : tools.idevice_id.device_ids = []) :
    ∃ r, (assembleRecords [t1, t2] tools).head? = some r ∧
      r.mode = "android_adb_confirmed" ∧
      (0.85 : ℚ) ≤ r.confidence ∧
      r.matched_tool_ids = ["X9"] := by
  clear h2a h2v h2i
  have hne : t1.vid ≠ "05ac" := by
    intro h
    rw [h] at h1v
    exact absurd h1v (by decide)
  have hcls : classify_candidate_device t1 =
      { mode := DeviceMode.UnknownUsb, confidence := 0.70,
        notes := ["Likely Android-related USB device (vendor interface/VID)",
                  "Confirm via adb/fastboot"] } := by
    unfold classify_candidate_device classify_android_device
    dsimp only
    rw [if_neg hne, if_pos h1v, if_pos h1i]
  have hres : resolve_device_identity_with_correlation t1 [t1, t2] tools =
      ({ mode := DeviceMode.AndroidAdbConfirmed, confidence := min (0.70 + 0.15) 0.95,
         notes := ["Likely Android-related USB device (vendor interface/VID)",
                   "Confirm via adb/fastboot",
                   "Correlated: adb device id matches USB serial"] },
       ["X9"]) := by
    unfold resolve_device_identity_with_correlation
    rw [h1s, hcls]
    unfold correlate_device_identity adbCorrelateStep fastbootCorrelateStep
      ideviceCorrelateStep
    rw [hadbP, hadbIds, hfb, hid]
    simp
  refine ⟨_, rfl, ?_, ?_, ?_⟩
  · show (assembleRecord t1 [t1, t2] tools).mode = "android_adb_confirmed"
    unfold assembleRecord
    rw [hres]
    rfl
  · show (0.85 : ℚ) ≤ (assembleRecord t1 [t1, t2] tools).confidence
    unfold assembleRecord
    rw [hres]
    dsimp only
    rw [min_eq_left (by norm_num : (0.70 + 0.15 : ℚ) ≤ 0.95)]
    norm_num
  · show (assembleRecord t1 [t1, t2] tools).matched_tool_ids = ["X9"]
    unfold assembleRecord
    rw [hres]

theorem claim_C8_witness :
    ∃ r, (assembleRecords
        [{ vid := "18d1", pid := "4ee7", manufacturer := some "Google",
           product := some "Pixel 6", serial := some "X9", bus := 1, address := 3,
           interface_class := some 0xff, interface_hints := [⟨0xff, 0x42, 0x01⟩] },
         { vid := "0000", pid := "0000", manufacturer := none, product := none,
           serial := none, bus := 1, address := 1, interface_class := none,
           interface_hints := [] }]
        ⟨⟨true, true, "List of devices attached\nX9\tdevice\n", ["X9"]⟩,
         ⟨true, false, "", []⟩,
         ⟨false, false, "missing", []⟩⟩).head? = some r ∧
      r.mode = "android_adb_confirmed" ∧
      (0.85 : ℚ) ≤ r.confidence ∧
      r.matched_tool_ids = ["X9"] :=
  claim_C8_end_to_end _ _ _ (by decide) (by decide) (by decide) (by decide)
    (by decide) (by decide) (by decide) (by decide) (by decide) (by decide)

end BootForgeUsb
